import Mathlib

/-!
Verification of the quiz-generation subsystem of the Pivot learning platform.

This file gives a shallow embedding, in Lean, of the `GenerateQuiz` use case
(`src/application/use-cases/assessment/GenerateQuiz.ts`) together with the
domain entities it manipulates (`Question`, `QuestionOption`, `RoadmapItem`,
id value objects) and proves the specification's testable properties about it.

Modelling conventions:
* JS `Date` values are modelled as natural-number timestamps.
* Id value objects (`QuestionId`, `RoadmapId`, ...) wrap a string and only
  validate non-blankness; ids are therefore modelled as `String` and the
  `create` validations as explicit functions.
* The TypeScript source signals failure by `throw new Error(msg)`; fallible
  operations are modelled with `Except QuizError`.  The error taxonomy of the
  spec (NotFoundError / InvalidOperationError / ValidationError) is carried by
  the `QuizError` constructors: in the source the kind of an error is
  determined by its message (the HTTP route string-matches the message to map
  it to 404 / 400), so each throw site is embedded as the taxonomy constructor
  the spec assigns to it, with the exact source message preserved.
* External collaborators (roadmap repository, question repository, AI question
  generator, `randomUUID`, `Math.random`, the clock) are oracles collected in
  a `QuizEnv`; the side effects the use case performs on the repository and
  generator are recorded in an event trace (`RepoEvent`), in call order.
-/

namespace Pivot

/-- JS `Date` values, modelled as natural-number timestamps. -/
abbrev Timestamp := Nat

/-- Classification of the errors thrown by the subsystem, following the spec's
taxonomy (§7); each constructor carries the exact message of the `throw` site
it embeds. -/
inductive QuizError where
  | notFoundError (msg : String)
  | invalidOperationError (msg : String)
  | validationError (msg : String)
  deriving Repr, DecidableEq

/-- JS `String.prototype.trim()`: strip leading and trailing whitespace.
(Defined over the character list so that it evaluates by kernel reduction;
Lean's own `String.trim` is extensionally the same but is implemented with
byte positions and well-founded recursion.) -/
def jsTrim (s : String) : String :=
  ⟨(((s.data.dropWhile Char.isWhitespace).reverse.dropWhile Char.isWhitespace).reverse : List Char)⟩

/-- `QuestionId.create` (value object): rejects blank values, otherwise returns
the wrapped string unchanged. -/
def questionIdCreate (value : String) : Except QuizError String :=
  if (jsTrim value).length = 0 then
    .error (.validationError "QuestionId cannot be empty")
  else
    .ok value

/-- `QuestionOptionId.create` (value object). -/
def questionOptionIdCreate (value : String) : Except QuizError String :=
  if (jsTrim value).length = 0 then
    .error (.validationError "QuestionOptionId cannot be empty")
  else
    .ok value

/-- `RoadmapId.create` (value object). -/
def roadmapIdCreate (value : String) : Except QuizError String :=
  if (jsTrim value).length = 0 then
    .error (.validationError "RoadmapId cannot be empty")
  else
    .ok value

/-- `RoadmapItemId.create` (value object). -/
def roadmapItemIdCreate (value : String) : Except QuizError String :=
  if (jsTrim value).length = 0 then
    .error (.validationError "RoadmapItemId cannot be empty")
  else
    .ok value

/-- The `QuestionOption` entity (`QuestionOption.ts`): an answer choice owned
by a question. -/
structure QuestionOption where
  id : String
  text : String
  isCorrect : Bool
  deriving Repr, DecidableEq

/-- `QuestionOption.create`: fails when the text is empty or whitespace-only
(`text.trim().length === 0` in the source). -/
def QuestionOption.create (id text : String) (isCorrect : Bool) :
    Except QuizError QuestionOption :=
  if (jsTrim text).length = 0 then
    .error (.validationError "QuestionOption text cannot be empty")
  else
    .ok { id := id, text := text, isCorrect := isCorrect }

/-- The `Question` entity (`Question.ts`). -/
structure Question where
  id : String
  text : String
  tags : List String
  difficulty : String
  usageCount : Nat
  options : List QuestionOption
  createdAt : Timestamp
  updatedAt : Timestamp
  deriving Repr, DecidableEq

/-- `Question.create`: validates text, tags and difficulty in source order,
then constructs the entity with `usageCount = 0` and
`createdAt = updatedAt = now` (the private constructor sets `_updatedAt` to
the `createdAt` argument). -/
def Question.create (id text : String) (tags : List String) (difficulty : String)
    (options : List QuestionOption) (now : Timestamp) : Except QuizError Question :=
  if (jsTrim text).length = 0 then
    .error (.validationError "Question text cannot be empty")
  else if tags.length = 0 then
    .error (.validationError "Question must have at least one tag")
  else if (jsTrim difficulty).length = 0 then
    .error (.validationError "Question difficulty cannot be empty")
  else
    .ok { id := id, text := text, tags := tags, difficulty := difficulty,
          usageCount := 0, options := options, createdAt := now, updatedAt := now }

/-- `Question.incrementUsage`: `usageCount += 1`, `updatedAt = new Date()`.
The in-place mutation of the source becomes a functional update. -/
def Question.incrementUsage (q : Question) (now : Timestamp) : Question :=
  { q with usageCount := q.usageCount + 1, updatedAt := now }

/-- `RoadmapItemType` (`RoadmapItem.ts`): `"theory" | "project"`. -/
inductive RoadmapItemType where
  | theory
  | project
  deriving Repr, DecidableEq

/-- The fields of `RoadmapItem` read by the quiz engine. -/
structure RoadmapItem where
  id : String
  title : String
  type : RoadmapItemType
  topic : String
  difficulty : String
  deriving Repr, DecidableEq

/-- The fields of `Roadmap` read by the quiz engine. -/
structure Roadmap where
  id : String
  items : List RoadmapItem
  deriving Repr, DecidableEq

/-- An option of a raw AI draft (`GeneratedQuestion.options` element in
`IGenerateQuestionsFlow.ts`). -/
structure GeneratedOption where
  text : String
  isCorrect : Bool
  deriving Repr, DecidableEq

/-- A raw AI question draft (`GeneratedQuestion` in
`IGenerateQuestionsFlow.ts`). -/
structure GeneratedQuestion where
  text : String
  options : List GeneratedOption
  deriving Repr, DecidableEq

/-- The option projection emitted to the client: the source builds the object
literal `{ id: opt.id.value, text: opt.text }` and deliberately omits
`isCorrect`. -/
structure QuizOptionDTO where
  id : String
  text : String
  deriving Repr, DecidableEq

/-- A question as emitted to the client. -/
structure QuizQuestionDTO where
  id : String
  text : String
  options : List QuizOptionDTO
  deriving Repr, DecidableEq

/-- The client-facing quiz (`QuizDTO.ts`). -/
structure QuizDTO where
  roadmapItemId : String
  title : String
  difficulty : String
  questions : List QuizQuestionDTO
  deriving Repr, DecidableEq

/-- The key/value pairs JSON serialization of an emitted option object
produces: exactly an `id` field and a `text` field, in that order, mirroring
the object literal in the source. -/
def QuizOptionDTO.serialize (o : QuizOptionDTO) : List (String × String) :=
  [("id", o.id), ("text", o.text)]

/-- The projection applied to each option at the DTO boundary. -/
def projectOption (opt : QuestionOption) : QuizOptionDTO :=
  { id := opt.id, text := opt.text }

/-- The projection applied to each selected question at the DTO boundary. -/
def projectQuestion (q : Question) : QuizQuestionDTO :=
  { id := q.id, text := q.text, options := q.options.map projectOption }

/-- Observable calls the use case makes on the question repository and the
question generator, recorded in call order. -/
inductive RepoEvent where
  | findByTags (tags : List String) (difficulty : String)
  | generate (topic : String) (difficulty : String) (count : Nat)
  | saveMany (questions : List Question)
  deriving Repr, DecidableEq

/-- Whether an event is a call to the question generator. -/
def RepoEvent.isGenerate : RepoEvent → Bool
  | .generate _ _ _ => true
  | _ => false

/-- The collaborators of `GenerateQuiz`, as oracles:
`roadmapById` is `roadmapRepository.findById`; `findByTags` is
`questionRepository.findByTags`; `generate` is
`generateQuestionsFlow.generate`; `uuid n` is the `n`-th value `randomUUID()`
returns during the call; `rand n` is the value of
`Math.floor(Math.random() * (n + 1))`, which always lies in `[0, n]`;
`now` is the clock. -/
structure QuizEnv where
  roadmapById : String → Option Roadmap
  findByTags : List String → String → List Question
  generate : String → String → Nat → List GeneratedQuestion
  uuid : Nat → String
  rand : (n : Nat) → Fin (n + 1)
  now : Timestamp

/-- The tag list used for the pool lookup: `item.topic ? [item.topic] : []`
(the empty string is the only falsy string). -/
def lookupTags (item : RoadmapItem) : List String :=
  if item.topic = "" then [] else [item.topic]

/-- The topic handed to the generator: `item.topic || item.title`. -/
def generationTopic (item : RoadmapItem) : String :=
  if item.topic = "" then item.title else item.topic

namespace GenerateQuiz

/-- Number of questions returned to the client. -/
def QUIZ_SIZE : Nat := 5

/-- Minimum pool size required before sampling. -/
def MIN_POOL_SIZE : Nat := 10

/-- The option-construction part of `generateAndSaveQuestions`:
`qData.options.map(optData => QuestionOption.create(QuestionOptionId.create(
randomUUID()), optData.text, optData.isCorrect))`, with the `randomUUID`
stream threaded explicitly (each option consumes one uuid). -/
def buildOptions (uuid : Nat → String) :
    List GeneratedOption → Nat → Except QuizError (List QuestionOption × Nat)
  | [], idx => .ok ([], idx)
  | optData :: rest, idx =>
    match questionOptionIdCreate (uuid idx) with
    | .error e => .error e
    | .ok oid =>
      match QuestionOption.create oid optData.text optData.isCorrect with
      | .error e => .error e
      | .ok opt =>
        match buildOptions uuid rest (idx + 1) with
        | .error e => .error e
        | .ok (opts, idx') => .ok (opt :: opts, idx')

/-- The question-construction loop of `generateAndSaveQuestions`: for each
draft, a fresh question id, fresh option ids, the generation topic as the only
tag, the requested difficulty.  Each question consumes one uuid for its id and
one per option. -/
def buildQuestions (uuid : Nat → String) (topic difficulty : String) (now : Timestamp) :
    List GeneratedQuestion → Nat → Except QuizError (List Question × Nat)
  | [], idx => .ok ([], idx)
  | qData :: rest, idx =>
    match questionIdCreate (uuid idx) with
    | .error e => .error e
    | .ok qid =>
      match buildOptions uuid qData.options (idx + 1) with
      | .error e => .error e
      | .ok (options, idx1) =>
        match Question.create qid qData.text [topic] difficulty options now with
        | .error e => .error e
        | .ok q =>
          match buildQuestions uuid topic difficulty now rest idx1 with
          | .error e => .error e
          | .ok (qs, idx2) => .ok (q :: qs, idx2)

/-- `GenerateQuiz.generateAndSaveQuestions`: call the generator, construct the
domain questions from the drafts, persist the whole batch via `saveMany`, and
return it.  The result value comes with the trace of generator/repository
calls the source makes (the `saveMany` is only reached when every construction
succeeded). -/
def generateAndSaveQuestions (env : QuizEnv) (topic difficulty : String) (count : Nat) :
    Except QuizError (List Question) × List RepoEvent :=
  let generatedData := env.generate topic difficulty count
  match buildQuestions env.uuid topic difficulty env.now generatedData 0 with
  | .error e => (.error e, [.generate topic difficulty count])
  | .ok (questions, _) =>
      (.ok questions, [.generate topic difficulty count, .saveMany questions])

/-- In-place swap of two array cells,
`[shuffled[i], shuffled[j]] = [shuffled[j], shuffled[i]]`, on lists. -/
def swapElems {α : Type} (xs : List α) (i j : Nat) : List α :=
  match xs[i]?, xs[j]? with
  | some a, some b => (xs.set i b).set j a
  | _, _ => xs

/-- The Fisher–Yates loop
`for (let i = n - 1; i > 0; i--) { j = floor(random() * (i + 1)); swap i j }`,
by recursion on the loop variable. -/
def shuffleLoop {α : Type} (rand : (n : Nat) → Fin (n + 1)) (xs : List α) :
    Nat → List α
  | 0 => xs
  | i + 1 => shuffleLoop rand (swapElems xs (i + 1) (rand (i + 1)).val) i

/-- The whole shuffle: the loop started at `length - 1`. -/
def fisherYates {α : Type} (rand : (n : Nat) → Fin (n + 1)) (xs : List α) : List α :=
  shuffleLoop rand xs (xs.length - 1)

/-- `GenerateQuiz.selectRandomQuestions`: return the list unchanged when it
has at most `count` elements, otherwise Fisher–Yates shuffle and take the
first `count`. -/
def selectRandomQuestions (rand : (n : Nat) → Fin (n + 1))
    (questions : List Question) (count : Nat) : List Question :=
  if questions.length ≤ count then questions
  else (fisherYates rand questions).take count

/-- Steps 4–6 of `execute` after the pool is assembled: sample, increment the
usage count of every sampled question, and build the DTO from the incremented
questions.  Returns the DTO together with the batch passed to the final
`saveMany`. -/
def finishQuiz (env : QuizEnv) (item : RoadmapItem) (allQuestions : List Question) :
    QuizDTO × List Question :=
  let selectedQuestions := selectRandomQuestions env.rand allQuestions QUIZ_SIZE
  let incremented := selectedQuestions.map (fun q => q.incrementUsage env.now)
  ({ roadmapItemId := item.id,
     title := "Quiz: " ++ item.title,
     difficulty := item.difficulty,
     questions := incremented.map projectQuestion },
   incremented)

/-- `GenerateQuiz.execute` from the eligibility gate on, given the resolved
roadmap item. -/
def executeOnItem (env : QuizEnv) (item : RoadmapItem) :
    Except QuizError QuizDTO × List RepoEvent :=
  if item.type ≠ RoadmapItemType.theory then
    (.error (.invalidOperationError
      "Cannot generate quiz for PROJECT items. Use URL submission instead."), [])
  else
    let tags := lookupTags item
    let existingQuestions := env.findByTags tags item.difficulty
    if existingQuestions.length < MIN_POOL_SIZE then
      let neededCount := MIN_POOL_SIZE - existingQuestions.length
      match generateAndSaveQuestions env (generationTopic item) item.difficulty neededCount with
      | (.error e, evs) => (.error e, .findByTags tags item.difficulty :: evs)
      | (.ok newQuestions, evs) =>
        let allQuestions := existingQuestions ++ newQuestions
        let result := finishQuiz env item allQuestions
        (.ok result.1, .findByTags tags item.difficulty :: evs ++ [.saveMany result.2])
    else
      let result := finishQuiz env item existingQuestions
      (.ok result.1, [.findByTags tags item.difficulty, .saveMany result.2])

/-- `GenerateQuiz.execute(roadmapId, roadmapItemId)`: id value-object
validation, roadmap lookup, item lookup, then the eligibility-gated pipeline.
The second component is the trace of question-repository and generator calls. -/
def execute (env : QuizEnv) (roadmapId roadmapItemId : String) :
    Except QuizError QuizDTO × List RepoEvent :=
  match roadmapIdCreate roadmapId with
  | .error e => (.error e, [])
  | .ok _ =>
    match roadmapItemIdCreate roadmapItemId with
    | .error e => (.error e, [])
    | .ok _ =>
      match env.roadmapById roadmapId with
      | none => (.error (.notFoundError "Roadmap not found"), [])
      | some roadmap =>
        match roadmap.items.find? (fun i => i.id == roadmapItemId) with
        | none => (.error (.notFoundError "Roadmap item not found"), [])
        | some item => executeOnItem env item

end GenerateQuiz

/-! ## Basic lemmas about the entities and the trim model -/

/-- The trimmed string is empty iff every character of the original string is
whitespace (in particular, iff the string is empty or whitespace-only). -/
theorem jsTrim_length_zero_iff (s : String) :
    (jsTrim s).length = 0 ↔ s.data.all Char.isWhitespace := by
  show (((s.data.dropWhile Char.isWhitespace).reverse.dropWhile
      Char.isWhitespace).reverse).length = 0 ↔ _
  rw [List.length_reverse, List.length_eq_zero, List.dropWhile_eq_nil_iff,
    List.all_eq_true]
  constructor
  · intro h x hx
    rcases List.mem_append.mp
        ((List.takeWhile_append_dropWhile (p := Char.isWhitespace)
          (l := s.data)) ▸ hx) with hx' | hx'
    · exact List.mem_takeWhile_imp hx'
    · exact h x (List.mem_reverse.mpr hx')
  · intro h x hx
    exact h x ((List.dropWhile_sublist _).mem (List.mem_reverse.mp hx))

/-- Characterization of a successful `Question.create`. -/
theorem question_create_ok {id text : String} {tags : List String}
    {difficulty : String} {options : List QuestionOption} {now : Timestamp}
    {q : Question}
    (h : Question.create id text tags difficulty options now = .ok q) :
    q = { id := id, text := text, tags := tags, difficulty := difficulty,
          usageCount := 0, options := options, createdAt := now, updatedAt := now } := by
  rw [Question.create] at h
  split at h
  · exact Except.noConfusion h
  split at h
  · exact Except.noConfusion h
  split at h
  · exact Except.noConfusion h
  exact (Except.ok.inj h).symm

/-- Characterization of a successful `QuestionOption.create`. -/
theorem questionOption_create_ok {id text : String} {isCorrect : Bool}
    {opt : QuestionOption}
    (h : QuestionOption.create id text isCorrect = .ok opt) :
    opt = { id := id, text := text, isCorrect := isCorrect } := by
  rw [QuestionOption.create] at h
  split at h
  · exact Except.noConfusion h
  exact (Except.ok.inj h).symm

/-- Characterization of a successful `questionIdCreate`. -/
theorem questionIdCreate_ok {value v : String}
    (h : questionIdCreate value = .ok v) : v = value := by
  rw [questionIdCreate] at h
  split at h
  · exact Except.noConfusion h
  exact (Except.ok.inj h).symm

/-! ## Claim theorems: entity validation and the error paths of `execute` -/

/-- **C9.** `Question.create(id, text, tags, difficulty, options)` fails with a
`ValidationError` exactly when the text is empty or whitespace-only, or the
tag list is empty, or the difficulty is empty or whitespace-only; on success it
sets `usageCount` to `0` and `createdAt` equal to `updatedAt`.
`QuestionOption.create(id, text, isCorrect)` fails with a `ValidationError`
exactly when the text is empty or whitespace-only. -/
theorem C9_entity_validation (id text : String) (tags : List String)
    (difficulty : String) (options : List QuestionOption) (now : Timestamp)
    (oid otext : String) (oc : Bool) :
    ((∃ msg, Question.create id text tags difficulty options now =
        .error (.validationError msg)) ↔
      (text.data.all Char.isWhitespace ∨ tags = [] ∨
        difficulty.data.all Char.isWhitespace)) ∧
    (∀ q, Question.create id text tags difficulty options now = .ok q →
      q.usageCount = 0 ∧ q.createdAt = q.updatedAt) ∧
    ((∃ msg, QuestionOption.create oid otext oc = .error (.validationError msg)) ↔
      otext.data.all Char.isWhitespace) := by
  refine ⟨⟨?_, ?_⟩, ?_, ⟨?_, ?_⟩⟩
  · rintro ⟨msg, h⟩
    rw [Question.create] at h
    split at h
    · next hc => exact Or.inl ((jsTrim_length_zero_iff text).mp hc)
    split at h
    · next hc => exact Or.inr (Or.inl (List.length_eq_zero.mp hc))
    split at h
    · next hc => exact Or.inr (Or.inr ((jsTrim_length_zero_iff difficulty).mp hc))
    exact Except.noConfusion h
  · intro hor
    rw [Question.create]
    split
    · exact ⟨"Question text cannot be empty", rfl⟩
    split
    · exact ⟨"Question must have at least one tag", rfl⟩
    split
    · exact ⟨"Question difficulty cannot be empty", rfl⟩
    next hc1 hc2 hc3 =>
      rcases hor with hw | hw | hw
      · exact absurd ((jsTrim_length_zero_iff text).mpr hw) hc1
      · exact absurd (by simp [hw]) hc2
      · exact absurd ((jsTrim_length_zero_iff difficulty).mpr hw) hc3
  · intro q h
    rw [question_create_ok h]
    exact ⟨rfl, rfl⟩
  · rintro ⟨msg, h⟩
    rw [QuestionOption.create] at h
    split at h
    · next hc => exact (jsTrim_length_zero_iff otext).mp hc
    exact Except.noConfusion h
  · intro hw
    rw [QuestionOption.create]
    split
    · exact ⟨"QuestionOption text cannot be empty", rfl⟩
    next hc => exact absurd ((jsTrim_length_zero_iff otext).mpr hw) hc

/-- **C2.** When the roadmap resolves and the addressed item has non-theory
(project) type, `execute` fails with the `InvalidOperationError` stating that
quizzes cannot be generated for project items, and the question repository
(`findByTags`, `saveMany`) and the question generator are never invoked: the
call trace is empty. -/
theorem C2_project_item_rejected {env : QuizEnv} {roadmapId roadmapItemId : String}
    {roadmap : Roadmap} {item : RoadmapItem}
    (h1 : (jsTrim roadmapId).length ≠ 0) (h2 : (jsTrim roadmapItemId).length ≠ 0)
    (hr : env.roadmapById roadmapId = some roadmap)
    (hi : roadmap.items.find? (fun i => i.id == roadmapItemId) = some item)
    (ht : item.type ≠ RoadmapItemType.theory) :
    GenerateQuiz.execute env roadmapId roadmapItemId =
      (.error (.invalidOperationError
        "Cannot generate quiz for PROJECT items. Use URL submission instead."), []) := by
  simp only [GenerateQuiz.execute, roadmapIdCreate, roadmapItemIdCreate,
    if_neg h1, if_neg h2, hr, hi, GenerateQuiz.executeOnItem, if_pos ht]

/-- **C7.** `execute` fails with `NotFoundError("Roadmap not found")` when the
roadmap id does not resolve, and with `NotFoundError("Roadmap item not found")`
when the roadmap exists but holds no item with the given id; in both cases the
call trace is empty, so the failure happens before any question-repository or
generator access. -/
theorem C7_not_found_errors {env : QuizEnv} {roadmapId roadmapItemId : String}
    (h1 : (jsTrim roadmapId).length ≠ 0) (h2 : (jsTrim roadmapItemId).length ≠ 0) :
    (env.roadmapById roadmapId = none →
      GenerateQuiz.execute env roadmapId roadmapItemId =
        (.error (.notFoundError "Roadmap not found"), [])) ∧
    (∀ roadmap, env.roadmapById roadmapId = some roadmap →
      roadmap.items.find? (fun i => i.id == roadmapItemId) = none →
      GenerateQuiz.execute env roadmapId roadmapItemId =
        (.error (.notFoundError "Roadmap item not found"), [])) := by
  constructor
  · intro hn
    simp only [GenerateQuiz.execute, roadmapIdCreate, roadmapItemIdCreate,
      if_neg h1, if_neg h2, hn]
  · intro roadmap hr hn
    simp only [GenerateQuiz.execute, roadmapIdCreate, roadmapItemIdCreate,
      if_neg h1, if_neg h2, hr, hn]

/-! ## The sampling step: Fisher–Yates permutes, prefixes have no duplicates -/

/-- Pulling the `m`-th element of a list to the front while writing `x` into
its cell permutes consing `x` onto the list. -/
theorem get_cons_set_perm {α : Type} (l : List α) (x : α) :
    ∀ (m : Nat), (hm : m < l.length) → (l[m] :: l.set m x).Perm (x :: l) := by
  induction l with
  | nil => intro m hm; exact absurd hm (Nat.not_lt_zero m)
  | cons b t ih =>
    intro m hm
    cases m with
    | zero =>
      simp only [List.getElem_cons_zero, List.set_cons_zero]
      exact List.Perm.swap x b t
    | succ k =>
      have hk : k < t.length := Nat.lt_of_succ_lt_succ hm
      simp only [List.getElem_cons_succ, List.set_cons_succ]
      exact (List.Perm.swap b t[k] (t.set k x)).trans
        (((ih k hk).cons b).trans (List.Perm.swap x b t))

/-- Simultaneously writing each of two cells' values into the other cell
permutes the list. -/
theorem set_set_perm {α : Type} :
    ∀ (xs : List α) (i j : Nat) (hi : i < xs.length) (hj : j < xs.length),
    ((xs.set i xs[j]).set j xs[i]).Perm xs := by
  intro xs
  induction xs with
  | nil => intro i j hi _; exact absurd hi (Nat.not_lt_zero i)
  | cons a t ih =>
    intro i j hi hj
    cases i with
    | zero =>
      cases j with
      | zero =>
        simp only [List.getElem_cons_zero, List.set_cons_zero]
        exact List.Perm.refl _
      | succ m =>
        have hm : m < t.length := Nat.lt_of_succ_lt_succ hj
        simp only [List.getElem_cons_zero, List.getElem_cons_succ,
          List.set_cons_zero, List.set_cons_succ]
        exact get_cons_set_perm t a m hm
    | succ n =>
      have hn : n < t.length := Nat.lt_of_succ_lt_succ hi
      cases j with
      | zero =>
        simp only [List.getElem_cons_zero, List.getElem_cons_succ,
          List.set_cons_zero, List.set_cons_succ]
        exact get_cons_set_perm t a n hn
      | succ m =>
        have hm : m < t.length := Nat.lt_of_succ_lt_succ hj
        simp only [List.getElem_cons_succ, List.set_cons_succ]
        exact (ih n m hn hm).cons a

/-- A cell swap permutes the list. -/
theorem swapElems_perm {α : Type} (xs : List α) (i j : Nat) :
    (GenerateQuiz.swapElems xs i j).Perm xs := by
  rw [GenerateQuiz.swapElems]
  split
  · next a b ha hb =>
    obtain ⟨hi, hia⟩ := List.getElem?_eq_some.mp ha
    obtain ⟨hj, hjb⟩ := List.getElem?_eq_some.mp hb
    rw [← hia, ← hjb]
    exact set_set_perm xs i j hi hj
  · exact List.Perm.refl xs

/-- Every pass of the Fisher–Yates loop permutes the list. -/
theorem shuffleLoop_perm {α : Type} (rand : (n : Nat) → Fin (n + 1)) :
    ∀ (k : Nat) (xs : List α), (GenerateQuiz.shuffleLoop rand xs k).Perm xs := by
  intro k
  induction k with
  | zero => intro xs; exact List.Perm.refl xs
  | succ i ih =>
    intro xs
    exact (ih _).trans (swapElems_perm xs (i + 1) (rand (i + 1)).val)

/-- The Fisher–Yates shuffle permutes the list. -/
theorem fisherYates_perm {α : Type} (rand : (n : Nat) → Fin (n + 1))
    (xs : List α) : (GenerateQuiz.fisherYates rand xs).Perm xs :=
  shuffleLoop_perm rand (xs.length - 1) xs

/-- The sampled questions form a sub-permutation of the pool. -/
theorem selectRandomQuestions_subperm (rand : (n : Nat) → Fin (n + 1))
    (qs : List Question) (c : Nat) :
    (GenerateQuiz.selectRandomQuestions rand qs c).Subperm qs := by
  rw [GenerateQuiz.selectRandomQuestions]
  split
  · exact (List.Perm.refl qs).subperm
  · exact ((List.take_sublist c _).subperm).trans (fisherYates_perm rand qs).subperm

/-- The sample has `min count poolSize` questions. -/
theorem selectRandomQuestions_length (rand : (n : Nat) → Fin (n + 1))
    (qs : List Question) (c : Nat) :
    (GenerateQuiz.selectRandomQuestions rand qs c).length = min c qs.length := by
  rw [GenerateQuiz.selectRandomQuestions]
  split
  · next h => exact (Nat.min_eq_right h).symm
  · rw [List.length_take, (fisherYates_perm rand qs).length_eq]

/-- Sampling preserves distinctness of the question ids. -/
theorem selectRandomQuestions_nodup (rand : (n : Nat) → Fin (n + 1))
    (qs : List Question) (c : Nat) (h : (qs.map Question.id).Nodup) :
    ((GenerateQuiz.selectRandomQuestions rand qs c).map Question.id).Nodup := by
  obtain ⟨l, hperm, hsl⟩ := selectRandomQuestions_subperm rand qs c
  exact ((hperm.map Question.id).nodup_iff).mp (h.sublist (hsl.map Question.id))

/-- When the pool has at most `count` questions the sample is the whole pool,
in order, and the randomness source is never consulted. -/
theorem selectRandomQuestions_eq_of_le (rand : (n : Nat) → Fin (n + 1))
    (qs : List Question) (c : Nat) (h : qs.length ≤ c) :
    GenerateQuiz.selectRandomQuestions rand qs c = qs := by
  rw [GenerateQuiz.selectRandomQuestions, if_pos h]

/-! ## The backfill construction and inversion of a successful `execute` -/

/-- Building the options of one draft only moves the uuid cursor forward. -/
theorem buildOptions_ok_idx {uuid : Nat → String} :
    ∀ {gen : List GeneratedOption} {idx : Nat} {opts : List QuestionOption} {idx' : Nat},
    GenerateQuiz.buildOptions uuid gen idx = .ok (opts, idx') → idx ≤ idx' := by
  intro gen
  induction gen with
  | nil =>
    intro idx opts idx' h
    rw [GenerateQuiz.buildOptions] at h
    cases h
    exact Nat.le_refl _
  | cons o rest ih =>
    intro idx opts idx' h
    rw [GenerateQuiz.buildOptions] at h
    split at h
    · exact Except.noConfusion h
    split at h
    · exact Except.noConfusion h
    split at h
    · exact Except.noConfusion h
    next heq =>
    cases h
    exact Nat.le_of_succ_le (ih heq)

/-- Specification of a successful `buildQuestions` run: the uuid cursor moves
forward, every constructed question has `usageCount = 0` and carries a fresh
uuid from the consumed range as its id, and when the uuid supply is injective
the constructed ids are pairwise distinct. -/
theorem buildQuestions_ok_spec {uuid : Nat → String} {topic difficulty : String}
    {now : Timestamp} :
    ∀ {gen : List GeneratedQuestion} {idx : Nat} {qs : List Question} {idx' : Nat},
    GenerateQuiz.buildQuestions uuid topic difficulty now gen idx = .ok (qs, idx') →
    idx ≤ idx' ∧
    (∀ q ∈ qs, q.usageCount = 0 ∧ ∃ k, idx ≤ k ∧ k < idx' ∧ q.id = uuid k) ∧
    (Function.Injective uuid → (qs.map Question.id).Nodup) := by
  intro gen
  induction gen with
  | nil =>
    intro idx qs idx' h
    rw [GenerateQuiz.buildQuestions] at h
    cases h
    exact ⟨Nat.le_refl _, by simp, fun _ => by simp⟩
  | cons qd rest ih =>
    intro idx qs idx' h
    rw [GenerateQuiz.buildQuestions] at h
    split at h
    · exact Except.noConfusion h
    next qid hqid =>
    split at h
    · exact Except.noConfusion h
    next options idx1 hopts =>
    split at h
    · exact Except.noConfusion h
    next q hq =>
    split at h
    · exact Except.noConfusion h
    next qs2 idx2 hrest =>
    cases h
    have hqidv : qid = uuid idx := questionIdCreate_ok hqid
    have hqval := question_create_ok hq
    have hidx1 : idx + 1 ≤ idx1 := buildOptions_ok_idx hopts
    obtain ⟨hle2, hmem2, hnd2⟩ := ih hrest
    refine ⟨by omega, ?_, ?_⟩
    · intro x hx
      rcases List.mem_cons.mp hx with rfl | hx'
      · exact ⟨by rw [hqval], idx, Nat.le_refl idx, by omega, by rw [hqval, hqidv]⟩
      · obtain ⟨hu, k, hk1, hk2, hk3⟩ := hmem2 x hx'
        exact ⟨hu, k, by omega, hk2, hk3⟩
    · intro hinj
      rw [List.map_cons]
      refine List.nodup_cons.mpr ⟨?_, hnd2 hinj⟩
      intro hmem
      obtain ⟨x, hx, hid⟩ := List.mem_map.mp hmem
      obtain ⟨_, k, hk1, _, hk3⟩ := hmem2 x hx
      have hkk : uuid k = uuid idx := by rw [← hk3, hid, hqval, hqidv]
      have := hinj hkk
      omega

/-- The existing pool queried for an item (names the `findByTags` call of
`executeOnItem`). -/
def poolFor (env : QuizEnv) (item : RoadmapItem) : List Question :=
  env.findByTags (lookupTags item) item.difficulty

/-- The backfill count (names the `neededCount` of `executeOnItem`). -/
def neededFor (env : QuizEnv) (item : RoadmapItem) : Nat :=
  GenerateQuiz.MIN_POOL_SIZE - (poolFor env item).length

/-- The result of the backfill construction (names the `buildQuestions` call
performed inside `generateAndSaveQuestions` for an item). -/
def backfillResult (env : QuizEnv) (item : RoadmapItem) :
    Except QuizError (List Question × Nat) :=
  GenerateQuiz.buildQuestions env.uuid (generationTopic item) item.difficulty env.now
    (env.generate (generationTopic item) item.difficulty (neededFor env item)) 0

/-- When both id validations and both lookups succeed, `execute` proceeds to
the eligibility-gated pipeline on the resolved item. -/
theorem execute_eq_executeOnItem {env : QuizEnv} {roadmapId roadmapItemId : String}
    {roadmap : Roadmap} {item : RoadmapItem}
    (h1 : ¬(jsTrim roadmapId).length = 0) (h2 : ¬(jsTrim roadmapItemId).length = 0)
    (hr : env.roadmapById roadmapId = some roadmap)
    (hi : roadmap.items.find? (fun i => i.id == roadmapItemId) = some item) :
    GenerateQuiz.execute env roadmapId roadmapItemId =
      GenerateQuiz.executeOnItem env item := by
  simp only [GenerateQuiz.execute, roadmapIdCreate, roadmapItemIdCreate,
    if_neg h1, if_neg h2, hr, hi]

/-- Inversion of a successful `execute`: both lookups succeeded, the item is a
theory item, the DTO and the final save batch are produced by `finishQuiz` on
the pool extended with the backfill batch, the trace has the recorded shape,
and the backfill batch is the (successful) `buildQuestions` output exactly
when the existing pool is below `MIN_POOL_SIZE`, and empty otherwise. -/
theorem execute_ok_inv {env : QuizEnv} {roadmapId roadmapItemId : String}
    {dto : QuizDTO} {tr : List RepoEvent}
    (h : GenerateQuiz.execute env roadmapId roadmapItemId = (.ok dto, tr)) :
    ∃ roadmap item newQuestions,
      env.roadmapById roadmapId = some roadmap ∧
      roadmap.items.find? (fun i => i.id == roadmapItemId) = some item ∧
      item.type = RoadmapItemType.theory ∧
      dto = (GenerateQuiz.finishQuiz env item (poolFor env item ++ newQuestions)).1 ∧
      tr = .findByTags (lookupTags item) item.difficulty ::
        (if (poolFor env item).length < GenerateQuiz.MIN_POOL_SIZE then
          [.generate (generationTopic item) item.difficulty (neededFor env item),
           .saveMany newQuestions]
         else []) ++
        [.saveMany (GenerateQuiz.finishQuiz env item
          (poolFor env item ++ newQuestions)).2] ∧
      (if (poolFor env item).length < GenerateQuiz.MIN_POOL_SIZE then
        ∃ idx', backfillResult env item = .ok (newQuestions, idx')
       else newQuestions = []) := by
  by_cases h1 : (jsTrim roadmapId).length = 0
  · simp only [GenerateQuiz.execute, roadmapIdCreate, if_pos h1] at h
    simp at h
  by_cases h2 : (jsTrim roadmapItemId).length = 0
  · simp only [GenerateQuiz.execute, roadmapIdCreate, if_neg h1,
      roadmapItemIdCreate, if_pos h2] at h
    simp at h
  cases hr : env.roadmapById roadmapId with
  | none =>
    simp only [GenerateQuiz.execute, roadmapIdCreate, if_neg h1,
      roadmapItemIdCreate, if_neg h2, hr] at h
    simp at h
  | some roadmap =>
  cases hi : roadmap.items.find? (fun i => i.id == roadmapItemId) with
  | none =>
    simp only [GenerateQuiz.execute, roadmapIdCreate, if_neg h1,
      roadmapItemIdCreate, if_neg h2, hr, hi] at h
    simp at h
  | some item =>
  rw [execute_eq_executeOnItem h1 h2 hr hi] at h
  by_cases ht : item.type ≠ RoadmapItemType.theory
  · rw [GenerateQuiz.executeOnItem, if_pos ht] at h
    simp at h
  simp only [GenerateQuiz.executeOnItem, if_neg ht] at h
  push_neg at ht
  refine ⟨roadmap, item, ?_⟩
  by_cases hlen :
      (env.findByTags (lookupTags item) item.difficulty).length <
        GenerateQuiz.MIN_POOL_SIZE
  · rw [if_pos hlen] at h
    split at h
    · simp at h
    next newQs evs heq =>
    rw [Prod.mk.injEq] at h
    obtain ⟨hdto, htr⟩ := h
    injection hdto with hdto
    rw [GenerateQuiz.generateAndSaveQuestions] at heq
    split at heq
    · simp at heq
    next questions idx' hb =>
    rw [Prod.mk.injEq] at heq
    obtain ⟨hqs, hevs⟩ := heq
    injection hqs with hqs
    subst hqs
    subst hevs
    refine ⟨questions, rfl, hi, ht, ?_, ?_, ?_⟩
    · rw [← hdto]
      rfl
    · rw [← htr]
      simp only [poolFor, neededFor]
      rw [if_pos hlen]
    · simp only [poolFor, neededFor, backfillResult]
      rw [if_pos hlen]
      exact ⟨idx', hb⟩
  · rw [if_neg hlen] at h
    rw [Prod.mk.injEq] at h
    obtain ⟨hdto, htr⟩ := h
    injection hdto with hdto
    refine ⟨[], rfl, hi, ht, ?_, ?_, ?_⟩
    · simp only [poolFor, List.append_nil]
      exact hdto.symm
    · rw [← htr]
      simp only [poolFor, neededFor, List.append_nil]
      rw [if_neg hlen]
      rfl
    · simp only [poolFor]
      rw [if_neg hlen]
      trivial

/-- A theory item with a non-blank topic. -/
def theoryItem : RoadmapItem where
  id := "i1"
  title := "Hooks"
  type := .theory
  topic := "react"
  difficulty := "beginner"

/-- A project item. -/
def projectItem : RoadmapItem where
  id := "i2"
  title := "Portfolio"
  type := .project
  topic := "react"
  difficulty := "beginner"

/-- A theory item with a blank topic. -/
def blankTopicItem : RoadmapItem where
  id := "i3"
  title := "Basics"
  type := .theory
  topic := ""
  difficulty := "beginner"

/-- A roadmap holding the three items above. -/
def sampleRoadmap : Roadmap where
  id := "r1"
  items := [theoryItem, projectItem, blankTopicItem]

/-- A persisted question sitting in the pool. -/
def poolQuestion : Question where
  id := "a"
  text := "What does useState return?"
  tags := ["react"]
  difficulty := "beginner"
  usageCount := 3
  options := [{ id := "o1", text := "A pair", isCorrect := true },
              { id := "o2", text := "A promise", isCorrect := false }]
  createdAt := 0
  updatedAt := 0

/-- A deterministic uuid supply: `"u"`, `"ux"`, `"uxx"`, ... -/
def uuidStream : Nat → String := fun n => "u" ++ String.mk (List.replicate n 'x')

/-- A deterministic randomness source that always picks index 0. -/
def zeroRand : (n : Nat) → Fin (n + 1) := fun n => ⟨0, Nat.succ_pos n⟩

/-- A fixture environment whose pool holds a single question, so that backfill
triggers; the generator returns one two-option draft. -/
def smallPoolEnv : QuizEnv where
  roadmapById := fun s => if s = "r1" then some sampleRoadmap else none
  findByTags := fun _ _ => [poolQuestion]
  generate := fun _ _ _ =>
    [{ text := "What is JSX?",
       options := [{ text := "A syntax extension", isCorrect := true },
                   { text := "A database", isCorrect := false }] }]
  uuid := uuidStream
  rand := zeroRand
  now := 7

/-- **C1.** For every QuizDTO a successful `execute` returns, every question's
option list is the `{id, text}` projection of the underlying domain options,
and the serialized field list of every emitted option object is exactly
`id`, `text`: no `isCorrect` field (or any other correct-answer data) is
present, for every question in the response. -/
theorem C1_no_answer_leak {env : QuizEnv} {roadmapId roadmapItemId : String}
    {dto : QuizDTO} {tr : List RepoEvent}
    (h : GenerateQuiz.execute env roadmapId roadmapItemId = (.ok dto, tr)) :
    ∀ qd ∈ dto.questions,
      (∃ q : Question, qd = projectQuestion q ∧
        qd.options = q.options.map projectOption) ∧
      ∀ od ∈ qd.options, od.serialize.map Prod.fst = ["id", "text"] := by
  obtain ⟨roadmap, item, newQs, _, _, _, hdto, _⟩ := execute_ok_inv h
  subst hdto
  intro qd hqd
  simp only [GenerateQuiz.finishQuiz] at hqd
  obtain ⟨q, _, rfl⟩ := List.mem_map.mp hqd
  exact ⟨⟨q, rfl, rfl⟩, fun od _ => rfl⟩

/-- Whatever the outcome, `generateAndSaveQuestions` emits exactly one
generator call, with the requested topic, difficulty and count. -/
theorem generateAndSaveQuestions_filter (env : QuizEnv) (topic difficulty : String)
    (count : Nat) :
    (GenerateQuiz.generateAndSaveQuestions env topic difficulty count).2.filter
      RepoEvent.isGenerate = [.generate topic difficulty count] := by
  rw [GenerateQuiz.generateAndSaveQuestions]
  split
  · simp [RepoEvent.isGenerate]
  · simp [RepoEvent.isGenerate]

/-- **C3.** On a resolved theory item, the question generator is invoked iff
the pool returned by `findByTags` holds fewer than `MIN_POOL_SIZE` questions,
and then exactly once, with `count = MIN_POOL_SIZE - poolSize`; when the pool
already holds at least `MIN_POOL_SIZE` questions the trace contains no
generator call at all. -/
theorem C3_backfill_threshold {env : QuizEnv} {roadmapId roadmapItemId : String}
    {roadmap : Roadmap} {item : RoadmapItem}
    (h1 : ¬(jsTrim roadmapId).length = 0) (h2 : ¬(jsTrim roadmapItemId).length = 0)
    (hr : env.roadmapById roadmapId = some roadmap)
    (hi : roadmap.items.find? (fun i => i.id == roadmapItemId) = some item)
    (ht : item.type = RoadmapItemType.theory) :
    ((poolFor env item).length < GenerateQuiz.MIN_POOL_SIZE →
      (GenerateQuiz.execute env roadmapId roadmapItemId).2.filter RepoEvent.isGenerate =
        [.generate (generationTopic item) item.difficulty (neededFor env item)]) ∧
    (GenerateQuiz.MIN_POOL_SIZE ≤ (poolFor env item).length →
      (GenerateQuiz.execute env roadmapId roadmapItemId).2.filter RepoEvent.isGenerate =
        []) := by
  rw [execute_eq_executeOnItem h1 h2 hr hi]
  have ht2 : ¬(item.type ≠ RoadmapItemType.theory) := fun hne => hne ht
  simp only [GenerateQuiz.executeOnItem, if_neg ht2, poolFor, neededFor]
  constructor
  · intro hlen
    rw [if_pos hlen]
    have hfil := generateAndSaveQuestions_filter env (generationTopic item)
      item.difficulty (GenerateQuiz.MIN_POOL_SIZE -
        (env.findByTags (lookupTags item) item.difficulty).length)
    rcases hgas : GenerateQuiz.generateAndSaveQuestions env (generationTopic item)
        item.difficulty (GenerateQuiz.MIN_POOL_SIZE -
          (env.findByTags (lookupTags item) item.difficulty).length) with ⟨res, evs⟩
    rw [hgas] at hfil
    cases res with
    | error e => simpa [RepoEvent.isGenerate] using hfil
    | ok qs => simpa [RepoEvent.isGenerate, List.filter_append] using hfil
  · intro hge
    rw [if_neg (Nat.not_lt.mpr hge)]
    simp [RepoEvent.isGenerate]

/-- Witness for C3 at a concrete run: the 1-question pool triggers exactly one
generator call asking for 9 questions. -/
theorem C3_backfill_threshold_witness :
    (GenerateQuiz.execute smallPoolEnv "r1" "i1").2.filter RepoEvent.isGenerate =
      [.generate "react" "beginner" 9] :=
  (@C3_backfill_threshold smallPoolEnv "r1" "i1" sampleRoadmap theoryItem
      (by decide) (by decide) (by rfl) (by rfl) (by rfl)).1
    (by decide)

/-- The domain question `execute smallPoolEnv "r1" "i1"` constructs from the
generator draft. -/
def generatedQuestion : Question where
  id := "u"
  text := "What is JSX?"
  tags := ["react"]
  difficulty := "beginner"
  usageCount := 0
  options := [{ id := "ux", text := "A syntax extension", isCorrect := true },
              { id := "uxx", text := "A database", isCorrect := false }]
  createdAt := 7
  updatedAt := 7

/-- The DTO `execute smallPoolEnv "r1" "i1"` returns. -/
def smallDTO : QuizDTO where
  roadmapItemId := "i1"
  title := "Quiz: Hooks"
  difficulty := "beginner"
  questions := [{ id := "a", text := "What does useState return?",
                  options := [{ id := "o1", text := "A pair" },
                              { id := "o2", text := "A promise" }] },
                { id := "u", text := "What is JSX?",
                  options := [{ id := "ux", text := "A syntax extension" },
                              { id := "uxx", text := "A database" }] }]

/-- The trace `execute smallPoolEnv "r1" "i1"` records. -/
def smallTrace : List RepoEvent :=
  [.findByTags ["react"] "beginner",
   .generate "react" "beginner" 9,
   .saveMany [generatedQuestion],
   .saveMany [poolQuestion.incrementUsage 7, generatedQuestion.incrementUsage 7]]

/-- Concrete evaluation of `execute` on the small-pool fixture. -/
theorem smallExecute_eq :
    GenerateQuiz.execute smallPoolEnv "r1" "i1" = (.ok smallDTO, smallTrace) := by
  rfl

/-- Witness for C1 at a concrete run: the first emitted option of the first
question serializes to exactly an `id` and a `text` field. -/
theorem C1_no_answer_leak_witness :
    ({ id := "o1", text := "A pair" } : QuizOptionDTO).serialize.map Prod.fst =
      ["id", "text"] :=
  (C1_no_answer_leak smallExecute_eq
      { id := "a", text := "What does useState return?",
        options := [{ id := "o1", text := "A pair" },
                    { id := "o2", text := "A promise" }] }
      (by decide)).2
    { id := "o1", text := "A pair" } (by decide)

/-- **C5.** `usageCount` is never decreased: `Question.create` starts it at 0,
`incrementUsage` increases it by exactly 1 (and stamps `updatedAt`), and every
question included in a returned quiz has, in the final persisted batch, a
usage count strictly greater than the same question's count before the call
(the question is drawn from the pre-increment pool and incremented once). -/
theorem C5_usage_monotonic {env : QuizEnv} {roadmapId roadmapItemId : String}
    {dto : QuizDTO} {tr : List RepoEvent}
    (h : GenerateQuiz.execute env roadmapId roadmapItemId = (.ok dto, tr)) :
    (∀ (id text : String) (tags : List String) (difficulty : String)
        (options : List QuestionOption) (now : Timestamp) (q : Question),
      Question.create id text tags difficulty options now = .ok q →
        q.usageCount = 0) ∧
    (∀ (q : Question) (now : Timestamp),
      (q.incrementUsage now).usageCount = q.usageCount + 1 ∧
      q.usageCount < (q.incrementUsage now).usageCount ∧
      (q.incrementUsage now).updatedAt = now) ∧
    ∃ roadmap item newQuestions finalBatch,
      env.roadmapById roadmapId = some roadmap ∧
      roadmap.items.find? (fun i => i.id == roadmapItemId) = some item ∧
      tr.getLast? = some (.saveMany finalBatch) ∧
      dto.questions = finalBatch.map projectQuestion ∧
      ∀ q' ∈ finalBatch, ∃ q : Question,
        q ∈ poolFor env item ++ newQuestions ∧
        q' = q.incrementUsage env.now ∧
        q.usageCount < q'.usageCount := by
  refine ⟨?_, ?_, ?_⟩
  · intro id text tags difficulty options now q hq
    rw [question_create_ok hq]
  · intro q now
    exact ⟨rfl, Nat.lt_succ_self _, rfl⟩
  · obtain ⟨roadmap, item, newQs, hr, hi, ht, hdto, htr, hback⟩ := execute_ok_inv h
    refine ⟨roadmap, item, newQs,
      (GenerateQuiz.finishQuiz env item (poolFor env item ++ newQs)).2, hr, hi, ?_, ?_, ?_⟩
    · rw [htr]
      by_cases hlen : (poolFor env item).length < GenerateQuiz.MIN_POOL_SIZE
      · rw [if_pos hlen]
        rfl
      · rw [if_neg hlen]
        rfl
    · rw [hdto]
      rfl
    · intro q' hq'
      simp only [GenerateQuiz.finishQuiz] at hq'
      obtain ⟨q, hqsel, rfl⟩ := List.mem_map.mp hq'
      exact ⟨q, (selectRandomQuestions_subperm env.rand _ _).subset hqsel,
        rfl, Nat.lt_succ_self _⟩

/-- **C6.** In every successful run that triggers backfill, the trace is
exactly: the pool lookup, the generator call, the `saveMany` of the newly
generated questions, and only then the final `saveMany` of the sampled,
usage-incremented questions — whose candidates are the existing pool plus the
previously saved batch.  The backfill persistence therefore happens strictly
before sampling, usage increment, and the final save. -/
theorem C6_durability_ordering {env : QuizEnv} {roadmapId roadmapItemId : String}
    {roadmap : Roadmap} {item : RoadmapItem} {dto : QuizDTO} {tr : List RepoEvent}
    (hr : env.roadmapById roadmapId = some roadmap)
    (hi : roadmap.items.find? (fun i => i.id == roadmapItemId) = some item)
    (hlen : (poolFor env item).length < GenerateQuiz.MIN_POOL_SIZE)
    (h : GenerateQuiz.execute env roadmapId roadmapItemId = (.ok dto, tr)) :
    ∃ newQuestions idx',
      backfillResult env item = .ok (newQuestions, idx') ∧
      tr = [.findByTags (lookupTags item) item.difficulty,
            .generate (generationTopic item) item.difficulty (neededFor env item),
            .saveMany newQuestions,
            .saveMany ((GenerateQuiz.selectRandomQuestions env.rand
                (poolFor env item ++ newQuestions) GenerateQuiz.QUIZ_SIZE).map
              (fun q => q.incrementUsage env.now))] := by
  obtain ⟨roadmap2, item2, newQs, hr2, hi2, ht2, hdto, htr, hback⟩ := execute_ok_inv h
  rw [hr] at hr2
  injection hr2 with hr2
  subst hr2
  rw [hi] at hi2
  injection hi2 with hi2
  subst hi2
  rw [if_pos hlen] at htr hback
  obtain ⟨idx', hb⟩ := hback
  exact ⟨newQs, idx', hb, htr⟩

/-- Witness for C5 at a concrete run: every question of the returned 2-question
quiz appears usage-incremented in the final saved batch. -/
theorem C5_usage_monotonic_witness :
    ∃ roadmap item newQuestions finalBatch,
      smallPoolEnv.roadmapById "r1" = some roadmap ∧
      roadmap.items.find? (fun i => i.id == "i1") = some item ∧
      smallTrace.getLast? = some (.saveMany finalBatch) ∧
      smallDTO.questions = finalBatch.map projectQuestion ∧
      ∀ q' ∈ finalBatch, ∃ q : Question,
        q ∈ poolFor smallPoolEnv item ++ newQuestions ∧
        q' = q.incrementUsage smallPoolEnv.now ∧
        q.usageCount < q'.usageCount :=
  (C5_usage_monotonic smallExecute_eq).2.2

/-- Witness for C6 at a concrete run: the backfill save of the generated batch
precedes the final save of the incremented sample. -/
theorem C6_durability_ordering_witness :
    ∃ newQuestions idx',
      backfillResult smallPoolEnv theoryItem = .ok (newQuestions, idx') ∧
      smallTrace =
        [.findByTags (lookupTags theoryItem) theoryItem.difficulty,
         .generate (generationTopic theoryItem) theoryItem.difficulty
           (neededFor smallPoolEnv theoryItem),
         .saveMany newQuestions,
         .saveMany ((GenerateQuiz.selectRandomQuestions smallPoolEnv.rand
             (poolFor smallPoolEnv theoryItem ++ newQuestions)
             GenerateQuiz.QUIZ_SIZE).map
           (fun q => q.incrementUsage smallPoolEnv.now))] :=
  C6_durability_ordering (by rfl) (by rfl) (by decide) smallExecute_eq

/-- **C4.** For every successful run (over a repository whose pools carry
pairwise-distinct ids and an injective, pool-fresh uuid supply), the number of
questions in the returned DTO equals `min(QUIZ_SIZE, combined pool size)`, the
returned question ids are pairwise distinct, and a combined pool smaller than
`QUIZ_SIZE` yields the entire pool (no error, no duplicate padding). -/
theorem C4_sample_bound {env : QuizEnv} {roadmapId roadmapItemId : String}
    {dto : QuizDTO} {tr : List RepoEvent}
    (hpool : ∀ tags difficulty,
      ((env.findByTags tags difficulty).map Question.id).Nodup)
    (huuid : Function.Injective env.uuid)
    (hfresh : ∀ n tags difficulty,
      env.uuid n ∉ (env.findByTags tags difficulty).map Question.id)
    (h : GenerateQuiz.execute env roadmapId roadmapItemId = (.ok dto, tr)) :
    ∃ roadmap item newQuestions,
      env.roadmapById roadmapId = some roadmap ∧
      roadmap.items.find? (fun i => i.id == roadmapItemId) = some item ∧
      (newQuestions = [] ∨ RepoEvent.saveMany newQuestions ∈ tr) ∧
      dto.questions.length =
        min GenerateQuiz.QUIZ_SIZE (poolFor env item ++ newQuestions).length ∧
      (dto.questions.map QuizQuestionDTO.id).Nodup ∧
      ((poolFor env item ++ newQuestions).length ≤ GenerateQuiz.QUIZ_SIZE →
        dto.questions.length = (poolFor env item ++ newQuestions).length) := by
  obtain ⟨roadmap, item, newQs, hr, hi, ht, hdto, htr, hback⟩ := execute_ok_inv h
  have hnodupAll : ((poolFor env item ++ newQs).map Question.id).Nodup := by
    rw [List.map_append]
    refine List.nodup_append.mpr ⟨hpool _ _, ?_, ?_⟩
    · by_cases hlen : (poolFor env item).length < GenerateQuiz.MIN_POOL_SIZE
      · rw [if_pos hlen] at hback
        obtain ⟨idx', hb⟩ := hback
        exact (buildQuestions_ok_spec hb).2.2 huuid
      · rw [if_neg hlen] at hback
        rw [hback]
        exact List.nodup_nil
    · by_cases hlen : (poolFor env item).length < GenerateQuiz.MIN_POOL_SIZE
      · rw [if_pos hlen] at hback
        obtain ⟨idx', hb⟩ := hback
        intro a ha hb2
        obtain ⟨x, hx, hxa⟩ := List.mem_map.mp hb2
        obtain ⟨_, k, _, _, hk⟩ := (buildQuestions_ok_spec hb).2.1 x hx
        rw [← hxa, hk] at ha
        exact hfresh k (lookupTags item) item.difficulty ha
      · rw [if_neg hlen] at hback
        rw [hback]
        intro a _ hb2
        simp at hb2
  have hids : dto.questions.map QuizQuestionDTO.id =
      (GenerateQuiz.selectRandomQuestions env.rand (poolFor env item ++ newQs)
        GenerateQuiz.QUIZ_SIZE).map Question.id := by
    rw [hdto]
    simp only [GenerateQuiz.finishQuiz]
    rw [List.map_map, List.map_map]
    rfl
  have hlensel := selectRandomQuestions_length env.rand
    (poolFor env item ++ newQs) GenerateQuiz.QUIZ_SIZE
  have hlendto : dto.questions.length =
      min GenerateQuiz.QUIZ_SIZE (poolFor env item ++ newQs).length := by
    have := congrArg List.length hids
    rw [List.length_map, List.length_map] at this
    rw [this, hlensel]
  refine ⟨roadmap, item, newQs, hr, hi, ?_, hlendto, ?_, ?_⟩
  · by_cases hlen : (poolFor env item).length < GenerateQuiz.MIN_POOL_SIZE
    · rw [if_pos hlen] at htr
      right
      rw [htr]
      simp
    · rw [if_neg hlen] at hback
      exact Or.inl hback
  · rw [hids]
    exact selectRandomQuestions_nodup env.rand _ _ hnodupAll
  · intro hsmall
    rw [hlendto]
    omega

/-- With `uuidStream` distinct indices yield distinct uuids. -/
theorem uuidStream_injective : Function.Injective uuidStream := by
  intro a b hab
  have hd := congrArg String.data hab
  simp only [uuidStream] at hd
  have hd2 : List.replicate a 'x' = List.replicate b 'x' := by
    have h1 := congrArg List.tail hd
    simpa using h1
  have h2 := congrArg List.length hd2
  simpa using h2

/-- No `uuidStream` value collides with the pool id `"a"`. -/
theorem uuidStream_ne_a : ∀ n, uuidStream n ≠ "a" := by
  intro n h
  have hd := congrArg String.data h
  simp only [uuidStream] at hd
  have h1 := congrArg (fun l => l.head?) hd
  simp at h1

/-- Witness for C4 at a concrete run: the 2-question combined pool yields the
whole pool with distinct ids. -/
theorem C4_sample_bound_witness :
    ∃ roadmap item newQuestions,
      smallPoolEnv.roadmapById "r1" = some roadmap ∧
      roadmap.items.find? (fun i => i.id == "i1") = some item ∧
      (newQuestions = [] ∨ RepoEvent.saveMany newQuestions ∈ smallTrace) ∧
      smallDTO.questions.length =
        min GenerateQuiz.QUIZ_SIZE (poolFor smallPoolEnv item ++ newQuestions).length ∧
      (smallDTO.questions.map QuizQuestionDTO.id).Nodup ∧
      ((poolFor smallPoolEnv item ++ newQuestions).length ≤ GenerateQuiz.QUIZ_SIZE →
        smallDTO.questions.length =
          (poolFor smallPoolEnv item ++ newQuestions).length) :=
  C4_sample_bound
    (by
      intro tags difficulty
      show (List.map Question.id [poolQuestion]).Nodup
      decide)
    uuidStream_injective
    (by
      intro n tags difficulty hmem
      have : uuidStream n = "a" := by simpa [smallPoolEnv, poolQuestion] using hmem
      exact uuidStream_ne_a n this)
    smallExecute_eq

/-- The generator call is always part of the events `generateAndSaveQuestions`
records. -/
theorem gas_generate_mem (env : QuizEnv) (topic difficulty : String) (count : Nat) :
    RepoEvent.generate topic difficulty count ∈
      (GenerateQuiz.generateAndSaveQuestions env topic difficulty count).2 := by
  rw [GenerateQuiz.generateAndSaveQuestions]
  split
  · simp
  · simp

/-- **C8.** On a resolved theory item: when the topic is blank the pool lookup
uses the empty tag set while the generator (if backfill triggers) receives the
item's title as topic; when the topic is non-blank the lookup tag set is
exactly the singleton of the topic and the generator receives the topic. -/
theorem C8_topic_fallback {env : QuizEnv} {roadmapId roadmapItemId : String}
    {roadmap : Roadmap} {item : RoadmapItem}
    (h1 : ¬(jsTrim roadmapId).length = 0) (h2 : ¬(jsTrim roadmapItemId).length = 0)
    (hr : env.roadmapById roadmapId = some roadmap)
    (hi : roadmap.items.find? (fun i => i.id == roadmapItemId) = some item)
    (ht : item.type = RoadmapItemType.theory) :
    (item.topic = "" → lookupTags item = [] ∧ generationTopic item = item.title) ∧
    (item.topic ≠ "" →
      lookupTags item = [item.topic] ∧ generationTopic item = item.topic) ∧
    (GenerateQuiz.execute env roadmapId roadmapItemId).2.head? =
      some (.findByTags (lookupTags item) item.difficulty) ∧
    ((poolFor env item).length < GenerateQuiz.MIN_POOL_SIZE →
      RepoEvent.generate (generationTopic item) item.difficulty (neededFor env item) ∈
        (GenerateQuiz.execute env roadmapId roadmapItemId).2) := by
  rw [execute_eq_executeOnItem h1 h2 hr hi]
  have ht2 : ¬(item.type ≠ RoadmapItemType.theory) := fun hne => hne ht
  simp only [GenerateQuiz.executeOnItem, if_neg ht2, poolFor, neededFor]
  refine ⟨?_, ?_, ?_, ?_⟩
  · intro h0
    exact ⟨by rw [lookupTags, if_pos h0], by rw [generationTopic, if_pos h0]⟩
  · intro h0
    exact ⟨by rw [lookupTags, if_neg h0], by rw [generationTopic, if_neg h0]⟩
  · by_cases hlen :
        (env.findByTags (lookupTags item) item.difficulty).length <
          GenerateQuiz.MIN_POOL_SIZE
    · rw [if_pos hlen]
      split
      · rfl
      · rfl
    · rw [if_neg hlen]
      rfl
  · intro hlen
    rw [if_pos hlen]
    have hmem := gas_generate_mem env (generationTopic item) item.difficulty
      (GenerateQuiz.MIN_POOL_SIZE -
        (env.findByTags (lookupTags item) item.difficulty).length)
    rcases hgas : GenerateQuiz.generateAndSaveQuestions env (generationTopic item)
        item.difficulty (GenerateQuiz.MIN_POOL_SIZE -
          (env.findByTags (lookupTags item) item.difficulty).length) with ⟨res, evs⟩
    rw [hgas] at hmem
    cases res with
    | error e => exact List.mem_cons_of_mem _ hmem
    | ok qs =>
      refine List.mem_cons_of_mem _ ?_
      exact List.mem_append_left _ hmem

/-- Witness for C8 at a concrete run on the blank-topic item: the lookup uses
the empty tag set while the generator receives the item title. -/
theorem C8_topic_fallback_witness :
    lookupTags blankTopicItem = [] ∧
    generationTopic blankTopicItem = "Basics" ∧
    (GenerateQuiz.execute smallPoolEnv "r1" "i3").2.head? =
      some (.findByTags [] "beginner") ∧
    RepoEvent.generate "Basics" "beginner" 9 ∈
      (GenerateQuiz.execute smallPoolEnv "r1" "i3").2 := by
  have hC8 := @C8_topic_fallback smallPoolEnv "r1" "i3" sampleRoadmap blankTopicItem
    (by decide) (by decide) (by rfl) (by rfl) (by rfl)
  obtain ⟨hb, _, hh, hg⟩ := hC8
  obtain ⟨hb1, hb2⟩ := hb rfl
  exact ⟨hb1, hb2, hh, hg (by decide)⟩

/-- `generateAndSaveQuestions` does not read the randomness source. -/
theorem gas_rand_irrelevant (env : QuizEnv) (rand' : (n : Nat) → Fin (n + 1))
    (topic difficulty : String) (count : Nat) :
    GenerateQuiz.generateAndSaveQuestions { env with rand := rand' }
        topic difficulty count =
      GenerateQuiz.generateAndSaveQuestions env topic difficulty count := rfl

/-- `finishQuiz` ignores the randomness source when the pool has at most
`QUIZ_SIZE` questions. -/
theorem finishQuiz_rand_irrelevant (env : QuizEnv)
    (rand' : (n : Nat) → Fin (n + 1)) (item : RoadmapItem)
    (allQ : List Question) (h : allQ.length ≤ GenerateQuiz.QUIZ_SIZE) :
    GenerateQuiz.finishQuiz { env with rand := rand' } item allQ =
      GenerateQuiz.finishQuiz env item allQ := by
  simp only [GenerateQuiz.finishQuiz]
  rw [selectRandomQuestions_eq_of_le _ _ _ h, selectRandomQuestions_eq_of_le _ _ _ h]

/-- **C10.** When the combined pool (existing questions in repository order,
then the newly generated ones in generation order) has at most `QUIZ_SIZE`
questions, a successful `execute` returns the entire pool in exactly that
order, and performs no shuffle at all: replacing the randomness source changes
nothing about the result. -/
theorem C10_small_pool_order {env : QuizEnv} {roadmapId roadmapItemId : String}
    {roadmap : Roadmap} {item : RoadmapItem} {dto : QuizDTO} {tr : List RepoEvent}
    (h1 : ¬(jsTrim roadmapId).length = 0) (h2 : ¬(jsTrim roadmapItemId).length = 0)
    (hr : env.roadmapById roadmapId = some roadmap)
    (hi : roadmap.items.find? (fun i => i.id == roadmapItemId) = some item)
    (h : GenerateQuiz.execute env roadmapId roadmapItemId = (.ok dto, tr)) :
    ∃ newQuestions,
      ((poolFor env item).length < GenerateQuiz.MIN_POOL_SIZE ∧
          (∃ idx', backfillResult env item = .ok (newQuestions, idx')) ∨
        GenerateQuiz.MIN_POOL_SIZE ≤ (poolFor env item).length ∧ newQuestions = []) ∧
      ((poolFor env item ++ newQuestions).length ≤ GenerateQuiz.QUIZ_SIZE →
        dto.questions = (poolFor env item ++ newQuestions).map
          (fun q => projectQuestion (q.incrementUsage env.now)) ∧
        ∀ rand', GenerateQuiz.execute { env with rand := rand' }
            roadmapId roadmapItemId = (.ok dto, tr)) := by
  obtain ⟨roadmap2, item2, newQs, hr2, hi2, ht2, hdto, htr, hback⟩ := execute_ok_inv h
  rw [hr] at hr2
  injection hr2 with hr2
  subst hr2
  rw [hi] at hi2
  injection hi2 with hi2
  subst hi2
  have ht3 : ¬(item.type ≠ RoadmapItemType.theory) := fun hne => hne ht2
  refine ⟨newQs, ?_, ?_⟩
  · by_cases hlen : (poolFor env item).length < GenerateQuiz.MIN_POOL_SIZE
    · rw [if_pos hlen] at hback
      exact Or.inl ⟨hlen, hback⟩
    · rw [if_neg hlen] at hback
      exact Or.inr ⟨Nat.not_lt.mp hlen, hback⟩
  · intro hsmall
    have hsel := selectRandomQuestions_eq_of_le env.rand
      (poolFor env item ++ newQs) GenerateQuiz.QUIZ_SIZE hsmall
    constructor
    · rw [hdto]
      simp only [GenerateQuiz.finishQuiz]
      rw [hsel, List.map_map]
      rfl
    · intro rand'
      have key : GenerateQuiz.executeOnItem { env with rand := rand' } item =
          GenerateQuiz.executeOnItem env item := by
        simp only [GenerateQuiz.executeOnItem, if_neg ht3]
        rw [show ({ env with rand := rand' } : QuizEnv).findByTags =
          env.findByTags from rfl]
        rw [gas_rand_irrelevant env rand' (generationTopic item) item.difficulty _]
        by_cases hlen :
            (env.findByTags (lookupTags item) item.difficulty).length <
              GenerateQuiz.MIN_POOL_SIZE
        · simp only [if_pos hlen]
          rw [if_pos (show (poolFor env item).length < GenerateQuiz.MIN_POOL_SIZE
            from hlen)] at hback
          obtain ⟨idx', hb⟩ := hback
          simp only [backfillResult, neededFor, poolFor] at hb
          have hgaseq : GenerateQuiz.generateAndSaveQuestions env
              (generationTopic item) item.difficulty
              (GenerateQuiz.MIN_POOL_SIZE -
                (env.findByTags (lookupTags item) item.difficulty).length) =
              (.ok newQs,
                [.generate (generationTopic item) item.difficulty
                  (GenerateQuiz.MIN_POOL_SIZE -
                    (env.findByTags (lookupTags item) item.difficulty).length),
                 .saveMany newQs]) := by
            rw [GenerateQuiz.generateAndSaveQuestions, hb]
          simp only [hgaseq]
          rw [finishQuiz_rand_irrelevant env rand' item
            (env.findByTags (lookupTags item) item.difficulty ++ newQs)
            (show (env.findByTags (lookupTags item) item.difficulty ++ newQs).length ≤
              GenerateQuiz.QUIZ_SIZE from hsmall)]
        · simp only [if_neg hlen]
          rw [if_neg (show ¬(poolFor env item).length < GenerateQuiz.MIN_POOL_SIZE
            from hlen)] at hback
          have hsmall2 :
              (env.findByTags (lookupTags item) item.difficulty).length ≤
                GenerateQuiz.QUIZ_SIZE := by
            have := hsmall
            rw [hback, List.append_nil] at this
            exact this
          rw [finishQuiz_rand_irrelevant env rand' item _ hsmall2]
      rw [@execute_eq_executeOnItem { env with rand := rand' } roadmapId roadmapItemId
          roadmap item h1 h2 hr hi, key,
        ← execute_eq_executeOnItem h1 h2 hr hi]
      exact h

/-- Witness for C10 at a concrete run: the 2-question combined pool is
returned whole, in order, for any randomness source. -/
theorem C10_small_pool_order_witness :
    ∃ newQuestions,
      ((poolFor smallPoolEnv theoryItem).length < GenerateQuiz.MIN_POOL_SIZE ∧
          (∃ idx', backfillResult smallPoolEnv theoryItem =
            .ok (newQuestions, idx')) ∨
        GenerateQuiz.MIN_POOL_SIZE ≤ (poolFor smallPoolEnv theoryItem).length ∧
          newQuestions = []) ∧
      ((poolFor smallPoolEnv theoryItem ++ newQuestions).length ≤
          GenerateQuiz.QUIZ_SIZE →
        smallDTO.questions = (poolFor smallPoolEnv theoryItem ++ newQuestions).map
          (fun q => projectQuestion (q.incrementUsage smallPoolEnv.now)) ∧
        ∀ rand', GenerateQuiz.execute { smallPoolEnv with rand := rand' }
            "r1" "i1" = (.ok smallDTO, smallTrace)) :=
  C10_small_pool_order (by decide) (by decide) (by rfl) (by rfl) smallExecute_eq

/-- Witness for C9 at concrete inputs: whitespace-only text is rejected with a
`ValidationError`. -/
theorem C9_entity_validation_witness :
    ∃ msg, Question.create "q" "  " ["react"] "beginner" [] 0 =
      .error (.validationError msg) :=
  (C9_entity_validation "q" "  " ["react"] "beginner" [] 0 "o" "t" true).1.mpr
    (Or.inl (by decide))

/-- Witness for C2 at a concrete environment: asking for a quiz on the project
item fails with the ineligibility error and an empty call trace. -/
theorem C2_project_item_rejected_witness :
    GenerateQuiz.execute smallPoolEnv "r1" "i2" =
      (.error (.invalidOperationError
        "Cannot generate quiz for PROJECT items. Use URL submission instead."), []) :=
  C2_project_item_rejected (by decide) (by decide) (by rfl) (by rfl) (by decide)

/-- Witness for C7 at a concrete environment: an unresolvable roadmap id and
an unresolvable item id produce the two not-found errors with empty traces. -/
theorem C7_not_found_errors_witness :
    GenerateQuiz.execute smallPoolEnv "rX" "i1" =
        (.error (.notFoundError "Roadmap not found"), []) ∧
    GenerateQuiz.execute smallPoolEnv "r1" "iX" =
        (.error (.notFoundError "Roadmap item not found"), []) :=
  ⟨(C7_not_found_errors (by decide) (by decide)).1 (by rfl),
   (C7_not_found_errors (by decide) (by decide)).2 sampleRoadmap (by rfl) (by rfl)⟩

end Pivot
